import Mathlib

/-!
# Verification of the Game Map stage runtime ("Exercise")

Shallow embedding of the `Exercise` class (the per-stage runtime) of the
h5p-game-map repository, together with the state-code table installed by the
main content class (`h5p-game-map.js`).

Modelling conventions:
* JavaScript `undefined`/`null` holes are made explicit: the stored state is an
  `Option Nat` (`none` = `undefined`), the instance slot is a three-valued
  `InstSlot` (`undef`, `null`, or an actual instance).
* Callback invocations (`onStateChanged`, `onScoreChanged`) are collected into
  explicit lists of emitted values instead of being side effects.
* A JavaScript `TypeError` (property access on `undefined`, calling a
  non-function) is modelled by `JsRes.thrown` / an `Option`-`none` result.
* DOM manipulation, the intersection observer, `requestAnimationFrame` and
  `requestIdleCallback` scheduling are outside the state model; only the state
  and callback effects of each method are embedded.
-/

/-- The state-code table registered by the main content class:
`Globals.set('states', { unstarted: 0, locked: 1, unlocking: 2, open: 3,
opened: 4, completed: 5, cleared: 6 })`.  The table maps symbolic names to
integer codes; it has no numeric keys. -/
def states : List (String × Nat) :=
  [("unstarted", 0), ("locked", 1), ("unlocking", 2), ("open", 3),
   ("opened", 4), ("completed", 5), ("cleared", 6)]

/-- `Object.entries(states).find((entry) => entry[0] === state)`, projected to
the code component.  `none` means `find` returned `undefined`. -/
def lookupState (s : String) : Option Nat :=
  (states.find? (fun e => e.1 == s)).map (fun e => e.2)

/-- Capability surface of an embedded runnable content object, as probed by the
stage runtime.  A `none` in an optional capability means the method is absent
(so `?.()` yields `undefined`); a non-numeric return value of `getScore` /
`getMaxScore` is folded into `none` as well, since the runtime treats both the
same way. -/
structure Instance where
  isTask : Bool
  getMaxScore : Option Int
  getScore : Option Int
  getAnswerGiven : Option Bool
  hasResetTask : Bool
  hasShowSolutions : Bool
  getXAPIData : Option Nat
deriving DecidableEq

/-- The `this.instance` slot.  It starts as `undefined` (declared but never
assigned), and `H5P.newRunnable` may store `null`, `undefined` or an instance
into it. -/
inductive InstSlot where
  | undef
  | null
  | inst (i : Instance)
deriving DecidableEq

/-- JavaScript truthiness of the instance slot. -/
def InstSlot.truthy : InstSlot → Bool
  | .inst _ => true
  | _ => false

/-- `isInstanceTask(instance = {})`: an explicit truthy `isTask` flag wins;
otherwise the instance is a task iff it has a `getMaxScore` function returning
a value greater than zero.  Both `undefined` (replaced by the default `{}`) and
`null` (caught by the `!instance` guard) yield `false`. -/
def isInstanceTask : InstSlot → Bool
  | .inst i =>
      if i.isTask then true
      else
        match i.getMaxScore with
        | some m => decide (m > 0)
        | none => false
  | _ => false

/-- The `this.params.contentType` descriptor, flattened to the fields the
runtime reads and writes: the library string, the media source mime types
(`params.sources[i].mime`), the `params.visuals.fit` flag, the audio
`params.playerMode`, and the audio `params.fitToWrapper` flag. -/
structure ContentType where
  library : Option String
  sources : List String
  fit : Bool
  playerMode : String
  fitToWrapper : Bool
deriving DecidableEq

/-- `this.params.contentType?.library?.split?.(' ')[0]`. -/
def machineNameOf (ct : Option ContentType) : Option String :=
  ct.bind (fun c => c.library.map (fun l => (l.splitOn (" ")).headD ("")))

/-- The media-specific parameter adaptation performed by `initializeInstance`
before instantiation: for `H5P.Video`, `visuals.fit` is forced to "sources are
non-empty and the first source is mp4/webm/ogg"; for `H5P.Audio` in `full`
player mode, `fitToWrapper` is forced to `true`. -/
def adaptContentType (ct : Option ContentType) : Option ContentType :=
  match ct with
  | none => none
  | some c =>
    let c :=
      if machineNameOf (some c) = some ("H5P.Video") then
        { c with fit := decide (c.sources ≠ []) &&
            (c.sources.headD ("") == "video/mp4" ||
             c.sources.headD ("") == "video/webm" ||
             c.sources.headD ("") == "video/ogg") }
      else c
    let c :=
      if machineNameOf (some c) = some ("H5P.Audio") && c.playerMode == "full" then
        { c with fitToWrapper := true }
      else c
    some c

/-- Mutable fields of one stage runtime (`Exercise`).  `state` is `none` until
the first assignment (JavaScript `undefined`) and can become `none` again
through `setState` branches that leave `newState` unassigned. -/
structure Exercise where
  params : Option ContentType
  state : Option Nat
  score : Int
  inst : InstSlot
  isAttached : Bool
  isShowingSolutions : Bool
deriving DecidableEq

/-- Result of a JavaScript call that can throw a `TypeError`. -/
inductive JsRes (α : Type) where
  | ok (v : α)
  | thrown
deriving DecidableEq

/-- The `state` argument of `setState`: a string, a number, or any other
value (for which `typeof state !== 'number'` triggers the early return). -/
inductive StateArg where
  | str (s : String)
  | num (n : Nat)
  | other
deriving DecidableEq

/-- Outcome of the argument-resolution prefix of `setState` (lines 239-246):
an unresolvable string name makes `find(...)` return `undefined`, so the `[1]`
projection throws; any non-number after resolution returns early. -/
inductive ResolvedArg where
  | thrown
  | nonNumeric
  | code (c : Nat)
deriving DecidableEq

/-- Resolution of a `setState` argument through the code table. -/
def resolveArg : StateArg → ResolvedArg
  | .str s =>
    match lookupState s with
    | some c => .code c
    | none => .thrown
  | .num n => .code n
  | .other => .nonNumeric

/-- The `newState` computation of `setState` (lines 248-266).  With `force`,
the code evaluates `states[state]`: indexing the name-keyed table with a
numeric code, which never matches a key, so `newState` is `undefined`.
Without `force`, only the codes for `unstarted`, `opened`, `completed` and
`cleared` are accepted; `opened` resolves to `opened` for a task and `cleared`
otherwise; every other code leaves `newState` unassigned (`undefined`). -/
def resolveNewState (force task : Bool) (code : Nat) : Option Nat :=
  if force then none
  else if code = 0 then some 0
  else if code = 4 then (if task then some 4 else some 6)
  else if code = 5 then some 5
  else if code = 6 then some 6
  else none

/-- JavaScript truthiness of `!this.state`: the stored state is falsy when it
is `undefined` or the numeric code `0`. -/
def jsFalsyState : Option Nat → Bool
  | none => true
  | some n => n == 0

/-- Stored state and list of `onStateChanged` invocations produced by one
`setState` call. -/
structure SetStateResult where
  state : Option Nat
  emitted : List (Option Nat)
deriving DecidableEq

/-- Core of `setState` on an already-numeric code (lines 248-272): compute
`newState`, then `if (!this.state || this.state !== newState)` assign it and
invoke `onStateChanged(this.state)`. -/
def setStateNum (code : Nat) (force task : Bool) (cur : Option Nat) :
    SetStateResult :=
  if jsFalsyState cur || cur != resolveNewState force task code then
    ⟨resolveNewState force task code, [resolveNewState force task code]⟩
  else ⟨cur, []⟩

/-- `setState(state, params)` on a stage runtime: resolve the argument, and
run the numeric core with `task := isInstanceTask(this.instance)`.  The outer
`none` is the `TypeError` thrown on an unresolvable symbolic name. -/
def Exercise.setState (e : Exercise) (arg : StateArg) (force : Bool) :
    Option (Exercise × List (Option Nat)) :=
  match resolveArg arg with
  | .thrown => none
  | .nonNumeric => some (e, [])
  | .code c =>
    let r := setStateNum c force (isInstanceTask e.inst) e.state
    some ({ e with state := r.state }, r.emitted)

/-- An xAPI event as probed by `trackXAPI`: `score` is the result of
`event.getScore()`, with `none` standing for `null`. -/
structure XEvent where
  score : Option Int
deriving DecidableEq

/-- Effects of one `trackXAPI` call: the updated runtime, the
`onStateChanged` invocations, and the `onScoreChanged` invocations. -/
structure TrackResult where
  ex : Exercise
  stateEmitted : List (Option Nat)
  scoreEmitted : List Int
deriving DecidableEq

/-- `trackXAPI(event)` (lines 212-227): return early when the event is absent
or its score is `null`; otherwise record the score, set state to `completed`
if the score is below `this.instance.getMaxScore()` and to `cleared`
otherwise, then invoke `onScoreChanged` with the score.  The max-score call
has no optional chaining, so an absent instance or capability throws. -/
def Exercise.trackXAPI (e : Exercise) (ev : Option XEvent) : JsRes TrackResult :=
  match ev with
  | none => .ok ⟨e, [], []⟩
  | some event =>
    match event.score with
    | none => .ok ⟨e, [], []⟩
    | some s =>
      let e1 : Exercise := { e with score := s }
      match e1.inst with
      | .inst i =>
        match i.getMaxScore with
        | some m =>
          let r := setStateNum (if s < m then 5 else 6) false
            (isInstanceTask e1.inst) e1.state
          .ok ⟨{ e1 with state := r.state }, r.emitted, [s]⟩
        | none => .thrown
      | _ => .thrown

/-- `getScore()`: `this.instance?.getScore?.()`, defaulting to `0` unless the
result is a number. -/
def Exercise.getScore (e : Exercise) : Int :=
  match e.inst with
  | .inst i => i.getScore.getD 0
  | _ => 0

/-- `getMaxScore()`: `this.instance?.getMaxScore?.()`, defaulting to `0`
unless the result is a number. -/
def Exercise.getMaxScore (e : Exercise) : Int :=
  match e.inst with
  | .inst i => i.getMaxScore.getD 0
  | _ => 0

/-- `getAnswerGiven()`: `this.instance?.getAnswerGiven?.() ?? false`. -/
def Exercise.getAnswerGiven (e : Exercise) : Bool :=
  match e.inst with
  | .inst i => i.getAnswerGiven.getD false
  | _ => false

/-- `showSolutions()`: `this.instance?.showSolutions?.()` never throws thanks
to the optional chains; the method then sets `isShowingSolutions`. -/
def Exercise.showSolutions (e : Exercise) : Exercise :=
  { e with isShowingSolutions := true }

/-- `getXAPIData()`: `return this.instance.getXAPIData?.()`.  The access to
`this.instance` itself has no optional chaining, so it throws a `TypeError`
when the slot holds `undefined` or `null`. -/
def Exercise.getXAPIData (e : Exercise) : JsRes (Option Nat) :=
  match e.inst with
  | .inst i => .ok i.getXAPIData
  | _ => .thrown

/-- `attachInstance()` (lines 278-292): no-op when already attached;
otherwise `this.instance.attach(...)` is called without optional chaining, so
an absent instance throws; on success `isAttached` becomes true.  (The
Audio/Chrome pixel-height correction only touches the DOM.) -/
def Exercise.attachInstance (e : Exercise) : JsRes Exercise :=
  if e.isAttached then .ok e
  else
    match e.inst with
    | .inst _ => .ok { e with isAttached := true }
    | _ => .thrown

/-- Effects of one `reset()` call: the updated runtime, the `onStateChanged`
invocations of the embedded `setState`, and whether
`this.instance?.resetTask?.()` was actually invoked. -/
structure ResetResult where
  ex : Exercise
  stateEmitted : List (Option Nat)
  resetTaskInvoked : Bool
deriving DecidableEq

/-- `reset()` (lines 315-340): zero the score, `setState(states['unstarted'])`,
invoke `resetTask` only when attached and the capability exists (both accesses
are optionally chained), clear the solutions flag.  The deferred intersection
observer installation is DOM work outside the model. -/
def Exercise.reset (e : Exercise) : ResetResult :=
  let e1 : Exercise := { e with score := 0 }
  let r := setStateNum 0 false (isInstanceTask e1.inst) e1.state
  let e2 : Exercise := { e1 with state := r.state }
  let invoked :=
    e2.isAttached &&
      (match e2.inst with
       | .inst i => i.hasResetTask
       | _ => false)
  (⟨{ e2 with isShowingSolutions := false }, r.emitted, invoked⟩ : ResetResult)

/-- External effects of one `initializeInstance` call: whether
`H5P.newRunnable` was invoked, whether the bidirectional bubbling was wired,
and whether the xAPI listener was subscribed. -/
structure InitEffects where
  factoryCalled : Bool
  wired : Bool
  subscribedXAPI : Bool
deriving DecidableEq

/-- `initializeInstance()` (lines 43-91).  The guard
`this.instance === null || this.instance` returns early for a `null` marker or
an existing instance — but not for `undefined`.  Then the media parameters are
adapted, `H5P.newRunnable` (here: the `factory` argument, its result being
whatever the host returns) is called and stored, the rest is aborted if no
instance resulted, and otherwise bubbling is wired and — for tasks — the xAPI
listener subscribed. -/
def Exercise.initializeInstance (e : Exercise) (factory : InstSlot) :
    Exercise × InitEffects :=
  if e.inst = .null || e.inst.truthy then (e, ⟨false, false, false⟩)
  else
    let e1 : Exercise := { e with params := adaptContentType e.params }
    let e2 : Exercise :=
      if !e1.inst.truthy then { e1 with inst := factory } else e1
    if !e2.inst.truthy then (e2, ⟨true, false, false⟩)
    else (e2, ⟨true, true, isInstanceTask e2.inst⟩)

/-- The constructor (lines 13-29): fields start out `undefined`/default,
`setState(Globals.get('states')['unstarted'])` runs (through the same numeric
core as every later transition, with the instance slot still `undefined`),
then `initializeInstance()` runs.  Returns the constructed runtime and every
`onStateChanged` invocation that happened before the constructor returned
(`initializeInstance` only registers listeners and never invokes a
callback). -/
def Exercise.construct (params : Option ContentType) (factory : InstSlot) :
    Exercise × List (Option Nat) :=
  let e0 : Exercise :=
    { params := params, state := none, score := 0, inst := .undef,
      isAttached := false, isShowingSolutions := false }
  let r := setStateNum 0 false (isInstanceTask e0.inst) e0.state
  let e1 : Exercise := { e0 with state := r.state }
  let e2 := (e1.initializeInstance factory).1
  (e2, r.emitted)

/-- State of the main orchestrating instance (the parent target of upward
bubbling) as far as the relays read it: its transient `bubblingUpwards`
flag. -/
structure Parent where
  bubblingUpwards : Bool
deriving DecidableEq

/-- Body of the listener installed by `bubbleDown(origin, eventName, targets)`
(lines 168-181), run when `origin` raises `eventName`: if
`origin.bubblingUpwards` is set, nothing is delivered; otherwise each target
receives the event under the same name, provided the stage `isAttached`. -/
def bubbleDownRelay (origin : Parent) (isAttached : Bool) (targets : List Nat)
    (eventName : String) : List (Nat × String) :=
  if origin.bubblingUpwards then []
  else targets.filterMap
    (fun t => if isAttached then some (t, eventName) else none)

/-- Observable outcome of one upward relay: the parent's final flag, the
events the parent target observed, and the events echoed back down to child
instances within the same synchronous turn. -/
structure UpResult where
  parent : Parent
  parentDeliveries : List String
  downDeliveries : List (Nat × String)
deriving DecidableEq

/-- Body of the listener installed by `bubbleUp(origin, eventName, target)`
(lines 148-159), run when the embedded instance raises `eventName`: set
`target.bubblingUpwards`, call `target.trigger(eventName, event)` — which the
event system dispatches synchronously to the target's listeners, including the
downward relay wired in `initializeInstance` for the same event name — and
clear the flag immediately after the trigger call returns. -/
def bubbleUpRelay (parent : Parent) (isAttached : Bool) (targets : List Nat)
    (eventName : String) : UpResult :=
  let p1 : Parent := { parent with bubblingUpwards := true }
  let downs := bubbleDownRelay p1 isAttached targets eventName
  let p2 : Parent := { p1 with bubblingUpwards := false }
  ⟨p2, [eventName], downs⟩

/-! ## Sample values used by concrete witnesses and counterexamples -/

/-- A task-type embedded instance: max score 5, full capability surface. -/
def taskInstance : Instance :=
  ⟨false, some 5, some 0, some false, true, true, some 0⟩

/-- A freshly constructed stage whose factory produced `taskInstance`
(stored state is the unstarted code 0, as set by the constructor). -/
def exFreshTask : Exercise :=
  { params := none, state := some 0, score := 0, inst := .inst taskInstance,
    isAttached := false, isShowingSolutions := false }

/-- A freshly constructed stage whose factory produced no instance. -/
def exNoInstance : Exercise :=
  { params := none, state := some 0, score := 0, inst := .undef,
    isAttached := false, isShowingSolutions := false }

/-- The task stage after a successful `setState('opened')`. -/
def exOpened : Exercise :=
  { exFreshTask with state := some 4 }

/-! ## Helper lemmas about the `setState` core -/

/-- When the stored state is falsy or differs from the resolved state, the
guard fires: the resolved state is stored and emitted once. -/
theorem setStateNum_fires (code : Nat) (force task : Bool) (cur : Option Nat)
    (h : cur ≠ resolveNewState force task code) :
    setStateNum code force task cur =
      ⟨resolveNewState force task code, [resolveNewState force task code]⟩ := by
  have hc : (jsFalsyState cur || cur != resolveNewState force task code) = true := by
    simp [bne_iff_ne, h]
  unfold setStateNum
  rw [if_pos hc]

/-- When the stored state is truthy and equal to the resolved state, the
guard does not fire: nothing is stored or emitted. -/
theorem setStateNum_skips (code : Nat) (force task : Bool) (cur : Option Nat)
    (h1 : jsFalsyState cur = false)
    (h2 : cur = resolveNewState force task code) :
    setStateNum code force task cur = ⟨cur, []⟩ := by
  have hc : (jsFalsyState cur || cur != resolveNewState force task code) = false := by
    rw [← h2]
    simp [h1, bne_iff_ne]
  unfold setStateNum
  rw [if_neg (by simp [hc])]

/-- The state stored by the numeric `setState` core is always the resolved
state (when the guard skips, the stored state already equals it). -/
theorem setStateNum_state (code : Nat) (force task : Bool) (cur : Option Nat) :
    (setStateNum code force task cur).state = resolveNewState force task code := by
  by_cases h : cur = resolveNewState force task code
  · by_cases h1 : jsFalsyState cur = true
    · unfold setStateNum
      rw [if_pos (by simp [h1])]
    · rw [setStateNum_skips code force task cur (by simpa using h1) h]
      exact h
  · rw [setStateNum_fires code force task cur h]

/-- `initializeInstance` only writes the `params` and `inst` fields; the
stored progress state is untouched. -/
theorem initializeInstance_preserves_state (e : Exercise) (f : InstSlot) :
    (e.initializeInstance f).1.state = e.state := by
  unfold Exercise.initializeInstance
  split
  · rfl
  · dsimp only
    split <;> (try split) <;> rfl

/-! ## Claim theorems -/

/-- C8: an event raised by the embedded instance under a bubbled name is
relayed to the main orchestrating parent exactly once, is never echoed back
down to the stage instances within the same synchronous turn (the
loop-prevention flag is set before the upward relay, seen by the downward
relay, and cleared after the relay returns), and the parent's flag ends the
turn cleared. -/
theorem bubbleUp_relays_once_no_echo (p : Parent) (att : Bool) (ts : List Nat)
    (ev : String) :
    bubbleUpRelay p att ts ev = ⟨⟨false⟩, [ev], []⟩ := rfl

/-- C9: an origin event reaching the downward relay while the stage is not
attached is not delivered to the embedded instance; once attached, every
origin event raised while the upward-bubbling flag is clear is delivered to
each target under the same event name. -/
theorem bubbleDown_attachment_gate (p : Parent) (ts : List Nat) (ev : String)
    (h : p.bubblingUpwards = false) :
    bubbleDownRelay p false ts ev = [] ∧
    bubbleDownRelay p true ts ev = ts.map (fun t => (t, ev)) := by
  constructor
  · simp [bubbleDownRelay, h]
  · induction ts with
    | nil => simp [bubbleDownRelay, h]
    | cons a l ih => simpa [bubbleDownRelay, h, List.filterMap_cons] using ih

/-- Witness for C9 at a concrete parent, target list and event name. -/
theorem bubbleDown_attachment_gate_witness :
    bubbleDownRelay ⟨false⟩ false [7] ("resize") = [] ∧
    bubbleDownRelay ⟨false⟩ true [7] ("resize") =
      [7].map (fun t => (t, ("resize" : String))) :=
  bubbleDown_attachment_gate ⟨false⟩ [7] ("resize") rfl

/-- C10: constructing a stage runtime invokes `onStateChanged` exactly once,
with the unstarted code 0, before the constructor returns, and the stored
state after construction is 0; the initial state goes through the same
`setState` core as every later transition. -/
theorem construct_initial_state_callback (params : Option ContentType)
    (factory : InstSlot) :
    (Exercise.construct params factory).2 = [some 0] ∧
    (Exercise.construct params factory).1.state = some 0 := by
  constructor
  · rfl
  · have hc : (Exercise.construct params factory).1 =
        (Exercise.initializeInstance
          { params := params, state := some 0, score := 0, inst := .undef,
            isAttached := false, isShowingSolutions := false } factory).1 := rfl
    rw [hc, initializeInstance_preserves_state]

/-- C3 counterexample: with stored state `unstarted` (code 0, which is falsy
in JavaScript) a `setState(0)` call resolves to the very state already stored,
yet `onStateChanged` fires again — refuting "callback iff resolved state
differs from stored state". -/
theorem setState_refires_at_unstarted_cex :
    resolveNewState false (isInstanceTask exNoInstance.inst) 0
        = exNoInstance.state ∧
    exNoInstance.setState (.num 0) false = some (exNoInstance, [some 0]) := by
  decide

/-- C4: evaluation at the failing input.  With stored state `opened`(4), the
rejected numeric code 1 (`locked`) is not a silent no-op: the stored state is
clobbered to `undefined` and `onStateChanged(undefined)` fires; and an
unresolvable symbolic name throws a `TypeError` instead of returning. -/
theorem setState_rejected_code_eval :
    exOpened.setState (.num 1) false =
      some ({ exOpened with state := none }, [none]) ∧
    exOpened.setState (.str ("nonexistent")) false = none := by
  decide

/-- C5: evaluation at the failing input.  `setState(4, { force: true })` on a
fresh task stage does not store the raw code 4: `states[4]` indexes the
name-keyed table and yields `undefined`, so the stored state becomes
`undefined` and `onStateChanged(undefined)` fires. -/
theorem setState_force_eval :
    exFreshTask.setState (.num 4) true =
      some ({ exFreshTask with state := none }, [none]) := by
  decide

/-- C6 counterexample: with the instance slot still `undefined`, both
`getXAPIData` (`this.instance.getXAPIData?.()`) and `attachInstance`
(`this.instance.attach(...)`) dereference the absent instance without optional
chaining and throw, refuting "getXAPIData and attachInstance do not throw". -/
theorem absent_instance_throws_cex :
    exNoInstance.getXAPIData = JsRes.thrown ∧
    exNoInstance.attachInstance = JsRes.thrown := by
  decide

/-- C7 counterexample: on a fresh stage whose factory returns `undefined`, the
first `initializeInstance` call invokes the factory and a second call invokes
it again — the `=== null || truthy` guard does not recognise the stored
`undefined`, refuting "a second call requests no new instance". -/
theorem initializeInstance_retry_cex :
    (exNoInstance.initializeInstance .undef).2.factoryCalled = true ∧
    ((exNoInstance.initializeInstance .undef).1.initializeInstance
      .undef).2.factoryCalled = true := by
  decide

/-- C1: `setState('opened')` stores `opened`(4) when the embedded instance is
a task (explicit flag or positive max score) and `cleared`(6) otherwise; when
the stored state differs from the resolved code, `onStateChanged` fires
exactly once with that code, and an immediately repeated identical call fires
no further callback. -/
theorem setState_opened_task_branching (e : Exercise)
    (h : e.state ≠ some (if isInstanceTask e.inst then 4 else 6)) :
    e.setState (.str ("opened")) false =
      some ({ e with state := some (if isInstanceTask e.inst then 4 else 6) },
        [some (if isInstanceTask e.inst then 4 else 6)]) ∧
    Exercise.setState
      { e with state := some (if isInstanceTask e.inst then 4 else 6) }
      (.str ("opened")) false =
      some ({ e with state := some (if isInstanceTask e.inst then 4 else 6) },
        []) := by
  have hres : resolveNewState false (isInstanceTask e.inst) 4 =
      some (if isInstanceTask e.inst then 4 else 6) := by
    cases isInstanceTask e.inst <;> rfl
  constructor
  · have step : e.setState (.str ("opened")) false =
        some ({ e with state :=
            (setStateNum 4 false (isInstanceTask e.inst) e.state).state },
          (setStateNum 4 false (isInstanceTask e.inst) e.state).emitted) := rfl
    rw [step, setStateNum_fires 4 false (isInstanceTask e.inst) e.state
      (by rw [hres]; exact h)]
    simp [hres]
  · have step : Exercise.setState
        { e with state := some (if isInstanceTask e.inst then 4 else 6) }
        (.str ("opened")) false =
        some ({ e with state :=
            (setStateNum 4 false (isInstanceTask e.inst)
              (some (if isInstanceTask e.inst then 4 else 6))).state },
          (setStateNum 4 false (isInstanceTask e.inst)
            (some (if isInstanceTask e.inst then 4 else 6))).emitted) := rfl
    rw [step, setStateNum_skips 4 false (isInstanceTask e.inst)
      (some (if isInstanceTask e.inst then 4 else 6))
      (by cases isInstanceTask e.inst <;> rfl)
      (by cases isInstanceTask e.inst <;> rfl)]

/-- Witness for C1 on a fresh stage wrapping a task instance. -/
theorem setState_opened_task_branching_witness :
    exFreshTask.setState (.str ("opened")) false =
      some ({ exFreshTask with
          state := some (if isInstanceTask exFreshTask.inst then 4 else 6) },
        [some (if isInstanceTask exFreshTask.inst then 4 else 6)]) ∧
    Exercise.setState
      { exFreshTask with
          state := some (if isInstanceTask exFreshTask.inst then 4 else 6) }
      (.str ("opened")) false =
      some ({ exFreshTask with
          state := some (if isInstanceTask exFreshTask.inst then 4 else 6) },
        []) :=
  setState_opened_task_branching exFreshTask (by decide)

/-- C2: on a stage whose instantiated instance reports a max score, `trackXAPI`
on a missing event or an event with a `null` score changes nothing and invokes
no callback; on an event carrying score `s` it records `s`, resolves the state
to `completed`(5) when `s` is strictly below the max score and to `cleared`(6)
otherwise, and invokes `onScoreChanged(s)` unconditionally. -/
theorem trackXAPI_score_tracking (e : Exercise) (i : Instance) (m s : Int)
    (h1 : e.inst = .inst i) (h2 : i.getMaxScore = some m) :
    e.trackXAPI none = .ok ⟨e, [], []⟩ ∧
    e.trackXAPI (some ⟨none⟩) = .ok ⟨e, [], []⟩ ∧
    e.trackXAPI (some ⟨some s⟩) =
      .ok ⟨{ e with score := s, state := some (if s < m then 5 else 6) },
        (setStateNum (if s < m then 5 else 6) false (isInstanceTask e.inst)
          e.state).emitted, [s]⟩ := by
  refine ⟨rfl, rfl, ?_⟩
  obtain ⟨p, st, sc, sl, att, sol⟩ := e
  change sl = InstSlot.inst i at h1
  subst h1
  obtain ⟨it, gms, gsc, gag, hrt, hss, gx⟩ := i
  change gms = some m at h2
  subst h2
  have hstate : (setStateNum (if s < m then 5 else 6) false
      (isInstanceTask (.inst ⟨it, some m, gsc, gag, hrt, hss, gx⟩)) st).state =
      some (if s < m then 5 else 6) := by
    rw [setStateNum_state]
    by_cases hs : s < m
    · simp [hs, resolveNewState]
    · simp [hs, resolveNewState]
  simp only [Exercise.trackXAPI]
  rw [hstate]

/-- Witness for C2: max score 5, scored event 3 (completed), applied on the
fresh task stage. -/
theorem trackXAPI_score_tracking_witness :
    exFreshTask.trackXAPI none = .ok ⟨exFreshTask, [], []⟩ ∧
    exFreshTask.trackXAPI (some ⟨none⟩) = .ok ⟨exFreshTask, [], []⟩ ∧
    exFreshTask.trackXAPI (some ⟨some 3⟩) =
      .ok ⟨{ exFreshTask with score := 3, state := some (if (3 : Int) < 5 then 5 else 6) },
        (setStateNum (if (3 : Int) < 5 then 5 else 6) false
          (isInstanceTask exFreshTask.inst) exFreshTask.state).emitted, [3]⟩ :=
  trackXAPI_score_tracking exFreshTask taskInstance 5 3 rfl rfl

/-- C3 (amended): a `setState` call that returns normally invokes
`onStateChanged` if and only if the request resolves to a numeric code and the
stored state is JavaScript-falsy (unset, or the unstarted code 0) or differs
from the resolved new state.  (The claim's plain "iff the resolved state
differs" fails at a stored state of 0, where the falsy check re-fires the
callback.) -/
theorem setState_callback_iff_amended (e : Exercise) (arg : StateArg)
    (force : Bool) (e2 : Exercise) (out : List (Option Nat))
    (h : e.setState arg force = some (e2, out)) :
    out ≠ [] ↔ ∃ c, resolveArg arg = .code c ∧
      (jsFalsyState e.state = true ∨
        e.state ≠ resolveNewState force (isInstanceTask e.inst) c) := by
  unfold Exercise.setState at h
  cases harg : resolveArg arg <;> rw [harg] at h
  · exact absurd h (by simp)
  · simp only [Option.some.injEq, Prod.mk.injEq] at h
    obtain ⟨-, hout⟩ := h
    subst hout
    simp
  · next c =>
    dsimp only at h
    simp only [Option.some.injEq, Prod.mk.injEq] at h
    obtain ⟨-, hout⟩ := h
    subst hout
    by_cases hcond : jsFalsyState e.state = true ∨
        e.state ≠ resolveNewState force (isInstanceTask e.inst) c
    · have hf : setStateNum c force (isInstanceTask e.inst) e.state =
          ⟨resolveNewState force (isInstanceTask e.inst) c,
            [resolveNewState force (isInstanceTask e.inst) c]⟩ := by
        rcases hcond with h1 | h1
        · unfold setStateNum
          rw [if_pos (by simp [h1])]
        · exact setStateNum_fires c force (isInstanceTask e.inst) e.state h1
      rw [hf]
      exact iff_of_true (by simp) ⟨c, rfl, hcond⟩
    · push_neg at hcond
      obtain ⟨h1, h2⟩ := hcond
      rw [setStateNum_skips c force (isInstanceTask e.inst) e.state
        (by simpa using h1) h2]
      constructor
      · intro hx
        exact absurd rfl hx
      · rintro ⟨c2, hc2, hcond2⟩
        injection hc2 with hcc
        subst hcc
        rcases hcond2 with hx | hx
        · exact absurd hx h1
        · exact absurd h2 hx

/-- Witness for C3 (amended): the rejected code 1 on a stage at state
`opened`(4) resolves to `undefined`, which differs from the stored state, and
the callback indeed fires (with `undefined`). -/
theorem setState_callback_iff_amended_witness :
    ([(none : Option Nat)] ≠ []) ↔ ∃ c, resolveArg (.num 1) = .code c ∧
      (jsFalsyState exOpened.state = true ∨
        exOpened.state ≠ resolveNewState false (isInstanceTask exOpened.inst) c) :=
  setState_callback_iff_amended exOpened (.num 1) false
    { exOpened with state := none } [none] (by decide)

/-- C6 (amended): with no embedded instance, the optionally-chained
capability accessors degrade gracefully — `getScore` and `getMaxScore` return
0, `getAnswerGiven` returns false, `showSolutions` only sets the flag, and
`reset` never invokes `resetTask` — but `getXAPIData` and `attachInstance`
(when not yet attached) dereference `this.instance` without optional chaining
and throw a `TypeError`. -/
theorem absent_instance_defaults_amended (e : Exercise)
    (h : e.inst.truthy = false) :
    e.getScore = 0 ∧ e.getMaxScore = 0 ∧ e.getAnswerGiven = false ∧
    e.showSolutions = { e with isShowingSolutions := true } ∧
    e.reset.resetTaskInvoked = false ∧
    e.getXAPIData = .thrown ∧
    (e.isAttached = false → e.attachInstance = .thrown) := by
  cases hs : e.inst with
  | inst i =>
    rw [hs] at h
    exact absurd h (by simp [InstSlot.truthy])
  | undef =>
    refine ⟨by simp [Exercise.getScore, hs], by simp [Exercise.getMaxScore, hs],
      by simp [Exercise.getAnswerGiven, hs],
      by simp [Exercise.showSolutions, hs],
      by simp [Exercise.reset, hs], by simp [Exercise.getXAPIData, hs],
      fun ha => by simp [Exercise.attachInstance, ha, hs]⟩
  | null =>
    refine ⟨by simp [Exercise.getScore, hs], by simp [Exercise.getMaxScore, hs],
      by simp [Exercise.getAnswerGiven, hs],
      by simp [Exercise.showSolutions, hs],
      by simp [Exercise.reset, hs], by simp [Exercise.getXAPIData, hs],
      fun ha => by simp [Exercise.attachInstance, ha, hs]⟩

/-- Witness for C6 (amended) on the stage whose factory produced nothing. -/
theorem absent_instance_defaults_amended_witness :
    exNoInstance.getScore = 0 ∧ exNoInstance.getMaxScore = 0 ∧
    exNoInstance.getAnswerGiven = false ∧
    exNoInstance.showSolutions =
      { exNoInstance with isShowingSolutions := true } ∧
    exNoInstance.reset.resetTaskInvoked = false ∧
    exNoInstance.getXAPIData = .thrown ∧
    (exNoInstance.isAttached = false → exNoInstance.attachInstance = .thrown) :=
  absent_instance_defaults_amended exNoInstance rfl

/-- C7 (amended): on a fresh stage, `initializeInstance` invokes the factory,
and — provided the factory did not return `undefined` (it produced an instance
or the `null` marker) — a second call performs no instantiation side effect at
all: no factory request, no re-wiring of event bubbling, no new xAPI
subscription.  (A factory returning `undefined` defeats the
`=== null || truthy` guard and is retried; see the counterexample.) -/
theorem initializeInstance_once_amended (e : Exercise) (f f2 : InstSlot)
    (h1 : e.inst = .undef) (h2 : f ≠ .undef) :
    (e.initializeInstance f).2.factoryCalled = true ∧
    ((e.initializeInstance f).1.initializeInstance f2).2 =
      ⟨false, false, false⟩ := by
  cases f with
  | undef => exact absurd rfl h2
  | null =>
    constructor
    · simp [Exercise.initializeInstance, h1, InstSlot.truthy]
    · simp [Exercise.initializeInstance, h1, InstSlot.truthy]
  | inst i =>
    constructor
    · simp [Exercise.initializeInstance, h1, InstSlot.truthy]
    · simp [Exercise.initializeInstance, h1, InstSlot.truthy]

/-- Witness for C7 (amended): `null`-returning factory on the first call, a
real instance offered on the second — the second call still does nothing. -/
theorem initializeInstance_once_amended_witness :
    (exNoInstance.initializeInstance .null).2.factoryCalled = true ∧
    ((exNoInstance.initializeInstance .null).1.initializeInstance
      (.inst taskInstance)).2 = ⟨false, false, false⟩ :=
  initializeInstance_once_amended exNoInstance .null (.inst taskInstance)
    rfl (by decide)
